import Mathlib

/-!
Verification of the dorkerplus capture-and-optimize pipeline.

Shallow embedding of the Go sources:
* `main.go` — orchestrator (`captureScreenshots`, `sanitizeFilename`,
  `optimizeImageSize`, `getFileSize`);
* the screenshotter file — `Capture`, `CapturePDF`, the `capturePDFWith*` /
  `captureWith*` strategies, the synthetic visualizations, `saveImage`;
* `dorkergoodnew/main.go` — `compressImage`, `capturePageContent`;
* `dorkergoodnew/dorker.go` — `fetchContent`.

Strings are treated as sequences of `Char`; all concrete inputs used below are
ASCII, where Go's byte-wise operations (`len`, slicing, truncation) coincide
with the character-wise ones used here.  External effects (the filesystem, the
HTTP response, `exec.LookPath`, `cmd.Run`) are passed in explicitly as
environment records, so each Go function becomes a pure function from its
environment to an outcome record describing what it returned and what it wrote.
-/

namespace DorkerPlus

/-! ## Go-style string primitives -/

/-- Predicate `clStarts pat s` : does the char list `s` start with `pat`?
(Go `strings.HasPrefix` on byte strings.) -/
def clStarts : List Char → List Char → Bool
  | [], _ => true
  | _ :: _, [] => false
  | p :: ps, c :: cs => p == c && clStarts ps cs

/-- Predicate `clHasSub pat s` : does `s` contain `pat` as a contiguous run?
(Go `strings.Contains`.) -/
def clHasSub (pat : List Char) : List Char → Bool
  | [] => clStarts pat []
  | c :: cs => clStarts pat (c :: cs) || clHasSub pat cs

/-- Go `strings.Contains s sub`. -/
def goContains (s sub : String) : Bool :=
  clHasSub sub.data s.data

/-- Go `strings.HasSuffix s pat`. -/
def strEndsWith (s pat : String) : Bool :=
  clStarts pat.data.reverse s.data.reverse

/-- Go `strings.TrimSuffix s pat`. -/
def trimSuffix (s pat : String) : String :=
  if strEndsWith s pat then String.mk (s.data.take (s.data.length - pat.data.length)) else s

/-- Remove the first occurrence of `pat` from a char list
(Go `strings.Replace(s, pat, "", 1)`). -/
def stripFirstOcc (pat : List Char) : List Char → List Char
  | [] => []
  | c :: cs =>
    if clStarts pat (c :: cs) then (c :: cs).drop pat.length
    else c :: stripFirstOcc pat cs

/-! ## sanitizeFilename and the orchestrator's output paths (main.go) -/

/-- The character class `[a-zA-Z0-9._-]` of `sanitizeFilename`'s regexp. -/
def allowedChar (c : Char) : Bool :=
  ('a' ≤ c && c ≤ 'z') || ('A' ≤ c && c ≤ 'Z') || ('0' ≤ c && c ≤ '9') ||
    c == '.' || c == '_' || c == '-'

/-- Function `sanitizeFilename` from `main.go`: drop the first occurrence of
`"https://"` then of `"http://"`, replace every character outside
`[a-zA-Z0-9._-]` with `'_'`, and truncate to 50. -/
def sanitizeFilename (url : String) : String :=
  let u1 := stripFirstOcc "https://".data url.data
  let u2 := stripFirstOcc "http://".data u1
  let u3 := u2.map (fun c => if allowedChar c then c else '_')
  String.mk (u3.take 50)

/-- The per-result output path built in `captureScreenshots` (`main.go`):
`filepath.Join(outputDir, sanitizeFilename(url) + ".png")`. -/
def screenshotOutputPath (outputDir url : String) : String :=
  outputDir ++ "/" ++ (sanitizeFilename url ++ ".png")

/-- A search result (`Result` in `dorkergoodnew/main.go`); only `url` feeds the
capture path computation. -/
structure Result where
  url : String
  title : String
  snippet : String
  content : String
  matchingLine : String
  keywords : List String

def mkUrlResult (u : String) : Result :=
  ⟨u, "", "", "", "", []⟩

/-- A filesystem as a lookup from path to file content; `os.Create` truncates,
so writing overwrites whatever was at the path. -/
def fsWrite (fs : String → Option α) (p : String) (v : α) : String → Option α :=
  fun q => if q == p then some v else fs q

/-- The `captureScreenshots` loop (`main.go`): for each result, the capture
writes one artifact at `screenshotOutputPath`.  The artifact's bytes are
abstracted by `artifact`. -/
def captureScreenshots (outputDir : String) (results : List Result)
    (artifact : Result → α) (fs : String → Option α) : String → Option α :=
  results.foldl (fun acc r => fsWrite acc (screenshotOutputPath outputDir r.url) (artifact r)) fs

/-! ## Response-body reads (dorker.go `fetchContent`, dorkergoodnew `capturePageContent`,
screenshotter `CapturePDF`) -/

/-- A response body, modelled by how many bytes it can still deliver. -/
structure Reader where
  remaining : Nat

/-- Combinator `io.LimitReader(r, n)`: delivers at most `n` bytes of `r`. -/
def limitReader (r : Reader) (n : Nat) : Reader :=
  ⟨min r.remaining n⟩

/-- Reads: `io.ReadAll(r)` / `io.Copy(dst, r)`: consumes everything the reader
delivers; result is the byte count. -/
def readAll (r : Reader) : Nat :=
  r.remaining

/-- Bytes read by `fetchContent` (`dorker.go`):
`io.ReadAll(io.LimitReader(resp.Body, 1024*100))`. -/
def fetchContentBytesRead (body : Reader) : Nat :=
  readAll (limitReader body (1024 * 100))

/-- Bytes read by `capturePageContent` (`dorkergoodnew/main.go`):
`io.ReadAll(io.LimitReader(resp.Body, 10*1024*1024))`. -/
def capturePageContentBytesRead (body : Reader) : Nat :=
  readAll (limitReader body (10 * 1024 * 1024))

/-- Bytes written to the scoped temporary PDF by `CapturePDF`
(screenshotter file): `io.Copy(tmpFile, resp.Body)` — no `LimitReader`. -/
def capturePDFBytesCopied (body : Reader) : Nat :=
  readAll body

/-! ## External-tool invocations (exec.Command) and HTTP clients -/

/-- A spawned command.  `deadline` is the timebox the invocation carries:
`exec.CommandContext` with a deadline context would set it; plain
`exec.Command` leaves it `none`. -/
structure GoCmd where
  name : String
  args : List String
  deadline : Option Nat

/-- Constructor `exec.Command(name, args...)`: no context, hence no deadline attached. -/
def execCommand (name : String) (args : List String) : GoCmd :=
  ⟨name, args, none⟩

/-- Command of `captureWithWkhtmltoimage`. -/
def wkhtmltoimageCmd (url outputPath : String) : GoCmd :=
  execCommand "wkhtmltoimage" ["--quiet", url, outputPath]

/-- Command of `captureWithChrome`. -/
def chromeCmd (url outputPath : String) : GoCmd :=
  execCommand "google-chrome"
    ["--headless", "--disable-gpu", "--no-sandbox", "--screenshot=" ++ outputPath,
     "--window-size=1024,768", url]

/-- Command of `captureWithChromium`. -/
def chromiumCmd (url outputPath : String) : GoCmd :=
  execCommand "chromium"
    ["--headless", "--disable-gpu", "--no-sandbox", "--screenshot=" ++ outputPath,
     "--window-size=1024,768", url]

/-- Command of `capturePDFWithPdftoppm`. -/
def pdftoppmCmd (pdfPath outputPath : String) : GoCmd :=
  execCommand "pdftoppm"
    ["-png", "-f", "1", "-l", "1", "-singlefile", pdfPath, trimSuffix outputPath ".png"]

/-- Command of `capturePDFWithImageMagick`. -/
def imagemagickPdfCmd (pdfPath outputPath : String) : GoCmd :=
  execCommand "convert"
    ["-density", "150", "-quality", "85", pdfPath ++ "[0]", "-resize", "1024x768", outputPath]

/-- Command of `capturePDFWithPdfimages`. -/
def pdfimagesCmd (pdfPath tempBase : String) : GoCmd :=
  execCommand "pdfimages" ["-png", "-f", "1", "-l", "1", pdfPath, tempBase]

/-- The recompression command of `optimizeImageSize` (`main.go`). -/
def optimizeConvertCmd (filePath : String) : GoCmd :=
  execCommand "convert" [filePath, "-quality", "60", "-resize", "50%", filePath ++ ".tmp.jpg"]

/-- The HTTP clients of `CapturePDF` / `captureWithPageRender` /
`capturePageContent` are built with `Timeout: s.timeout * time.Second`. -/
def httpClientTimeout (timeoutSecs : Nat) : Option Nat :=
  some timeoutSecs

/-! ## The synthetic artifact generator and captureWithPageRender's
outcome-to-category mapping (screenshotter file) -/

/-- Which synthetic visualization `captureWithPageRender` writes.  The four
constructors are `createPDFVisualization`, `createHTMLVisualization`,
`createSuccessVisualization`, `createErrorImage` (with its title). -/
inductive ArtifactCategory where
  | pdfViz
  | htmlViz
  | successViz
  | errorViz (title : String)
  deriving DecidableEq, Repr

/-- The category chosen by `captureWithPageRender` once the fetch returned:
`if resp.StatusCode == 200 { pdf / html / other }` else
`createErrorImage("HTTP <status>")`. -/
def pageRenderCategory (status : Nat) (contentType : String) : ArtifactCategory :=
  if status == 200 then
    if goContains contentType "pdf" then .pdfViz
    else if goContains contentType "html" then .htmlViz
    else .successViz
  else .errorViz ("HTTP " ++ toString status)

/-- Function `captureWithPageRender` in full: request construction and connection can
fail before any status exists. -/
def captureWithPageRender (reqOk doOk : Bool) (status : Nat) (contentType : String) :
    ArtifactCategory :=
  if !reqOk then .errorViz "Request failed"
  else if !doOk then .errorViz "Connection failed"
  else pageRenderCategory status contentType

/-! ## The non-PDF strategy chain: `Capture` (screenshotter file) -/

/-- Availability (`exec.LookPath`) and execution result (`cmd.Run`) of the
external tools, fixed for the duration of one call. -/
structure ToolEnv where
  onPath : String → Bool
  runOk : String → Bool

/-- Outcome of one `Capture` call: the renderer whose screenshot was accepted
(`none` when the chain reached the page-render fallback), the renderers that
were actually executed in order, and whether `captureWithPageRender` ran. -/
structure NonPdfOutcome where
  winner : Option String
  toolsRun : List String
  fellBack : Bool
  deriving DecidableEq, Repr

/-- Function `Capture` (screenshotter file): try `wkhtmltoimage`, then `google-chrome`,
then `chromium` — each guarded by `exec.LookPath`, each returning early on
`err == nil` — and otherwise fall through to `captureWithPageRender`. -/
def Capture (env : ToolEnv) : NonPdfOutcome :=
  if env.onPath "wkhtmltoimage" && env.runOk "wkhtmltoimage" then
    ⟨some "wkhtmltoimage", ["wkhtmltoimage"], false⟩
  else
    let r1 : List String := if env.onPath "wkhtmltoimage" then ["wkhtmltoimage"] else []
    if env.onPath "google-chrome" && env.runOk "google-chrome" then
      ⟨some "google-chrome", r1 ++ ["google-chrome"], false⟩
    else
      let r2 : List String := r1 ++ (if env.onPath "google-chrome" then ["google-chrome"] else [])
      if env.onPath "chromium" && env.runOk "chromium" then
        ⟨some "chromium", r2 ++ ["chromium"], false⟩
      else
        ⟨none, r2 ++ (if env.onPath "chromium" then ["chromium"] else []), true⟩

/-- The renderer priority order of `Capture`. -/
def rendererOrder : List String :=
  ["wkhtmltoimage", "google-chrome", "chromium"]

/-- Spec-shaped selection: the first renderer that is both on the path and
executes successfully. -/
def firstSuccessfulRenderer (env : ToolEnv) : Option String :=
  rendererOrder.find? (fun t => env.onPath t && env.runOk t)

/-! ## The PDF rasterizer chain: `CapturePDF` (screenshotter file) -/

/-- What `CapturePDF` returned. -/
inductive PdfRet where
  /-- returned `nil` (a rasterizer tool reported success) -/
  | ok
  /-- returned a wrapped error with this message -/
  | err (msg : String)
  /-- returned via `createErrorImage(outputPath, title, ...)` -/
  | wroteError (title : String)
  /-- returned via `createPDFVisualization` (synthetic PDF placeholder) -/
  | wroteSynthetic
  deriving DecidableEq, Repr

/-- Environment of one `CapturePDF` call. -/
structure PdfEnv where
  /-- whether `os.MkdirAll(tempDir)` succeeds -/
  mkdirOk : Bool
  /-- whether `http.NewRequest` succeeds -/
  reqOk : Bool
  /-- whether `client.Do(req)` succeeds -/
  doOk : Bool
  /-- response status when `doOk` -/
  status : Nat
  /-- whether `os.Create(tempPDF)` succeeds -/
  createTempOk : Bool
  /-- whether `io.Copy(tmpFile, resp.Body)` succeeds -/
  copyOk : Bool
  /-- tool availability and execution, as in `ToolEnv` -/
  tools : ToolEnv
  /-- the `pdfimages` run left a `...-000.png` file -/
  pdfimagesExtracted : Bool
  /-- whether `os.Rename` of the extracted image succeeds -/
  renameOk : Bool

/-- Outcome of one `CapturePDF` call: the return value, whether the scoped
temporary PDF file was created and whether it was removed again, which
rasterizer tools were executed, and whether the synthetic placeholder ran. -/
structure PdfOutcome where
  ret : PdfRet
  tempCreated : Bool
  tempRemoved : Bool
  toolsRun : List String
  usedSynthetic : Bool
  deriving DecidableEq, Repr

/-- Step `capturePDFWithPdfimages`: run `pdfimages`, then stat and rename the
extracted `-000.png`. -/
def pdfimagesRet (env : PdfEnv) : PdfRet :=
  if !env.tools.runOk "pdfimages" then .err "pdfimages failed"
  else if env.pdfimagesExtracted then
    if env.renameOk then .ok else .err "failed to move extracted image"
  else .err "no images extracted from PDF"

/-- Function `CapturePDF` (screenshotter file).  Note the source order: the
`io.Copy` error check precedes `defer os.Remove(tempPDF)`, so on a copy
failure the function returns with the temporary file still on disk; and each
rasterizer is guarded only by `exec.LookPath`, its result returned directly. -/
def CapturePDF (env : PdfEnv) : PdfOutcome :=
  if !env.mkdirOk then ⟨.err "failed to create temp directory", false, false, [], false⟩
  else if !env.reqOk then ⟨.wroteError "Request failed", false, false, [], false⟩
  else if !env.doOk then ⟨.wroteError "Download failed", false, false, [], false⟩
  else if env.status != 200 then
    ⟨.wroteError ("HTTP " ++ toString env.status), false, false, [], false⟩
  else if !env.createTempOk then ⟨.err "failed to create temp PDF", false, false, [], false⟩
  else if !env.copyOk then ⟨.err "failed to save temp PDF", true, false, [], false⟩
  else if env.tools.onPath "pdftoppm" then
    ⟨if env.tools.runOk "pdftoppm" then .ok else .err "pdftoppm failed",
      true, true, ["pdftoppm"], false⟩
  else if env.tools.onPath "convert" then
    ⟨if env.tools.runOk "convert" then .ok else .err "imagemagick failed",
      true, true, ["convert"], false⟩
  else if env.tools.onPath "pdfimages" then
    ⟨pdfimagesRet env, true, true, ["pdfimages"], false⟩
  else ⟨.wroteSynthetic, true, true, [], true⟩

/-- The rasterizer priority order probed by `CapturePDF`. -/
def rasterizerOrder : List String :=
  ["pdftoppm", "convert", "pdfimages"]

/-- The first rasterizer tool on the path, in `CapturePDF`'s probe order. -/
def firstAvailableRasterizer (env : PdfEnv) : Option String :=
  rasterizerOrder.find? (fun t => env.tools.onPath t)

/-! ## The size optimizer: `optimizeImageSize` (main.go) and
`compressImage` (dorkergoodnew/main.go) -/

/-- Environment of one `optimizeImageSize` call: the artifact's size on disk,
whether `getFileSize(filePath)` succeeds, whether the `convert` run exits 0,
and what `getFileSize(tempFile)` then returns. -/
structure OptEnv where
  origSize : Nat
  statOk : Bool
  runOk : Bool
  candSize : Option Nat

/-- Outcome of an optimizer call: whether an error was returned, the size of
the file at `filePath` afterwards, whether the original was replaced, and the
temporary path that was renamed over it. -/
structure OptResult where
  isError : Bool
  finalSize : Nat
  replaced : Bool
  renamedFrom : Option String
  deriving DecidableEq, Repr

/-- Function `optimizeImageSize(filePath, maxSizeKB)` (`main.go`): a no-op under budget;
otherwise one `convert -quality 60 -resize 50%` candidate at
`filePath + ".tmp.jpg"`, accepted (renamed over `filePath`) only when
`newSize < maxSizeBytes`; every other path keeps the original and returns
`nil`. -/
def optimizeImageSize (filePath : String) (maxSizeKB : Nat) (env : OptEnv) : OptResult :=
  if !env.statOk then ⟨true, env.origSize, false, none⟩
  else if env.origSize ≤ maxSizeKB * 1024 then ⟨false, env.origSize, false, none⟩
  else if env.runOk then
    match env.candSize with
    | some n =>
      if n < maxSizeKB * 1024 then ⟨false, n, true, some (filePath ++ ".tmp.jpg")⟩
      else ⟨false, env.origSize, false, none⟩
    | none => ⟨false, env.origSize, false, none⟩
  else ⟨false, env.origSize, false, none⟩

/-- Environment of one `compressImage` call (`dorkergoodnew/main.go`): two
schedule entries (quality 50 / resize 80%, then quality 30 / resize 50%), each
guarded by `exec.LookPath("convert")`. -/
structure CompressEnv where
  origSize : Nat
  statOk : Bool
  convertOnPath : Bool
  run1Ok : Bool
  cand1Size : Option Nat
  run2Ok : Bool
  cand2Size : Option Nat

/-- Function `compressImage(imagePath, maxSizeKB)` (`dorkergoodnew/main.go`): under
budget is a no-op; otherwise first candidate at `imagePath + ".tmp.jpg"`, and,
if it was not accepted, a second at `imagePath + ".tmp2.jpg"`; a candidate is
accepted only when `newSize < maxSizeBytes`; the function always ends in
`return nil` when the initial stat succeeded. -/
def compressImage (imagePath : String) (maxSizeKB : Nat) (env : CompressEnv) : OptResult :=
  if !env.statOk then ⟨true, env.origSize, false, none⟩
  else if env.origSize ≤ maxSizeKB * 1024 then ⟨false, env.origSize, false, none⟩
  else
    let firstAccepted : Option Nat :=
      if env.convertOnPath && env.run1Ok then
        match env.cand1Size with
        | some n => if n < maxSizeKB * 1024 then some n else none
        | none => none
      else none
    match firstAccepted with
    | some n => ⟨false, n, true, some (imagePath ++ ".tmp.jpg")⟩
    | none =>
      if env.convertOnPath && env.run2Ok then
        match env.cand2Size with
        | some n =>
          if n < maxSizeKB * 1024 then ⟨false, n, true, some (imagePath ++ ".tmp2.jpg")⟩
          else ⟨false, env.origSize, false, none⟩
        | none => ⟨false, env.origSize, false, none⟩
      else ⟨false, env.origSize, false, none⟩

/-! ## Image encodings: `saveImage` (screenshotter file) and the recompression
candidate's format -/

inductive ImgFormat where
  | jpeg
  | png
  | other
  deriving DecidableEq, Repr

/-- A file written by an image encoder. -/
structure ImageWrite where
  path : String
  format : ImgFormat
  quality : Nat
  deriving DecidableEq, Repr

/-- Function `saveImage` (screenshotter file): JPEG-encodes the image at
quality 85 to `outputPath` (Go: jpeg.Encode with Options Quality 85).  The drawn layout is irrelevant
to the encoding and is elided. -/
def saveImage (outputPath : String) : ImageWrite :=
  ⟨outputPath, .jpeg, 85⟩

/-- Step `createPDFVisualization` writes its placeholder through `saveImage`. -/
def createPDFVisualizationWrite (outputPath : String) : ImageWrite :=
  saveImage outputPath

/-- Step `createHTMLVisualization` writes its placeholder through `saveImage`. -/
def createHTMLVisualizationWrite (outputPath : String) : ImageWrite :=
  saveImage outputPath

/-- Step `createSuccessVisualization` writes its placeholder through `saveImage`. -/
def createSuccessVisualizationWrite (outputPath : String) : ImageWrite :=
  saveImage outputPath

/-- Step `createErrorImage` writes its placeholder through `saveImage`. -/
def createErrorImageWrite (outputPath : String) : ImageWrite :=
  saveImage outputPath

/-- Behavior of the external ImageMagick `convert` tool, which the code relies
on: the output encoding is chosen from the destination filename's extension, so
a `".jpg"` destination is written as JPEG. -/
def magickOutputFormat (destPath : String) : ImgFormat :=
  if strEndsWith destPath ".jpg" then .jpeg
  else if strEndsWith destPath ".png" then .png
  else .other

/-! ## Helper lemmas -/

lemma clStarts_self_append (l r : List Char) : clStarts l (l ++ r) = true := by
  induction l with
  | nil => rfl
  | cons c cs ih => simp [clStarts, ih]

lemma strEndsWith_of_data (s pat : String) (l : List Char)
    (h : s.data = l ++ pat.data) : strEndsWith s pat = true := by
  unfold strEndsWith
  rw [h, List.reverse_append]
  exact clStarts_self_append _ _

/-! ## Claims -/

/-- C9: `sanitizeFilename` is not injective — it strips the protocol, replaces
every character outside `[a-zA-Z0-9._-]` with `'_'` and truncates to 50 — so
two distinct URLs in a batch map to the same output path, and in the
`captureScreenshots` loop the later target's capture overwrites the earlier
target's artifact file. -/
theorem c9_filename_collision_overwrite :
    "http://example.com/login" ≠ "https://example.com/login" ∧
    sanitizeFilename "http://example.com/login" = sanitizeFilename "https://example.com/login" ∧
    screenshotOutputPath "shots" "http://example.com/login"
      = screenshotOutputPath "shots" "https://example.com/login" ∧
    captureScreenshots "shots"
        [mkUrlResult "http://example.com/login", mkUrlResult "https://example.com/login"]
        Result.url (fun _ => none)
        (screenshotOutputPath "shots" "http://example.com/login")
      = some "https://example.com/login" := by
  exact ⟨by decide, by decide, by decide, by decide⟩

/-- C6 counterexample: the PDF download in `CapturePDF` is `io.Copy` with no
`LimitReader`, so no byte ceiling bounds how much of the response body it
reads — for every proposed bound there is a body that exceeds it. -/
theorem c6_counterexample :
    ¬ ∃ B : Nat, ∀ body : Reader, capturePDFBytesCopied body ≤ B := by
  rintro ⟨B, h⟩
  have hb := h ⟨B + 1⟩
  simp [capturePDFBytesCopied, readAll] at hb

/-- C6 amended: the raw content fetches cap how much of the response body is
read (`fetchContent` at 100 KB, `capturePageContent` at 10 MB), but the PDF
download in `CapturePDF` copies the entire response body to the temporary file
with no byte ceiling. -/
theorem c6_amended_fetch_bounds (body : Reader) :
    fetchContentBytesRead body ≤ 1024 * 100 ∧
    capturePageContentBytesRead body ≤ 10 * 1024 * 1024 ∧
    capturePDFBytesCopied body = body.remaining := by
  refine ⟨?_, ?_, rfl⟩
  · exact Nat.min_le_right _ _
  · exact Nat.min_le_right _ _

/-- C6 witness: the bounds of the amended claim evaluated on a concrete
oversized body. -/
theorem c6_amended_witness :
    fetchContentBytesRead ⟨20000000⟩ ≤ 1024 * 100 ∧
    capturePageContentBytesRead ⟨20000000⟩ ≤ 10 * 1024 * 1024 ∧
    capturePDFBytesCopied ⟨20000000⟩ = 20000000 :=
  c6_amended_fetch_bounds ⟨20000000⟩

/-- C8 counterexample: `captureWithWkhtmltoimage` launches its renderer with
`exec.Command` — no context, no deadline — so with the configured per-target
timeout of 10 seconds the invocation does not carry that bound. -/
theorem c8_counterexample :
    (wkhtmltoimageCmd "http://example.com" "shot.png").deadline ≠ some 10 := by
  decide

/-- C8 amended: no external-tool invocation in the capture chain carries any
deadline (all are launched with plain `exec.Command`), so no per-strategy
timebox exists; only the HTTP fetches are bounded by the caller-supplied
timeout, which is installed as the HTTP client's `Timeout`. -/
theorem c8_amended_no_deadline (t : Nat) (url outputPath pdfPath tempBase filePath : String) :
    httpClientTimeout t = some t ∧
    (wkhtmltoimageCmd url outputPath).deadline = none ∧
    (chromeCmd url outputPath).deadline = none ∧
    (chromiumCmd url outputPath).deadline = none ∧
    (pdftoppmCmd pdfPath outputPath).deadline = none ∧
    (imagemagickPdfCmd pdfPath outputPath).deadline = none ∧
    (pdfimagesCmd pdfPath tempBase).deadline = none ∧
    (optimizeConvertCmd filePath).deadline = none :=
  ⟨rfl, rfl, rfl, rfl, rfl, rfl, rfl, rfl⟩

/-- C8 witness: the amended claim evaluated at the default 10-second timeout
and concrete paths. -/
theorem c8_amended_witness :
    httpClientTimeout 10 = some 10 ∧
    (wkhtmltoimageCmd "http://example.com" "shot.png").deadline = none ∧
    (chromeCmd "http://example.com" "shot.png").deadline = none ∧
    (chromiumCmd "http://example.com" "shot.png").deadline = none ∧
    (pdftoppmCmd "temp.pdf" "shot.png").deadline = none ∧
    (imagemagickPdfCmd "temp.pdf" "shot.png").deadline = none ∧
    (pdfimagesCmd "temp.pdf" ".pdfimage").deadline = none ∧
    (optimizeConvertCmd "shot.png").deadline = none :=
  c8_amended_no_deadline 10 "http://example.com" "shot.png" "temp.pdf" ".pdfimage" "shot.png"

/-- C7 counterexample: the claim maps every 2xx response with PDF content-type
to the PDF category, but the code tests `StatusCode == 200` exactly: a 201
response with content-type `application/pdf` yields the error category
encoding "HTTP 201", not the PDF category. -/
theorem c7_counterexample :
    pageRenderCategory 201 "application/pdf" = .errorViz "HTTP 201" ∧
    goContains "application/pdf" "pdf" = true ∧
    pageRenderCategory 201 "application/pdf" ≠ .pdfViz := by
  exact ⟨by decide, by decide, by decide⟩

/-- C7 amended: the mapping keys on status exactly 200, not on 2xx.  Any
non-200 status (including 201–299) yields an error-category artifact encoding
"HTTP <status>" (HTTP 404 yields "HTTP 404"); a 200 response whose
content-type contains "pdf" yields the PDF category, one containing "html"
the HTML category, and any other 200 content-type the success category. -/
theorem c7_amended_category_mapping (status : Nat) (ct : String) :
    (status ≠ 200 → pageRenderCategory status ct = .errorViz ("HTTP " ++ toString status)) ∧
    (goContains ct "pdf" = true → pageRenderCategory 200 ct = .pdfViz) ∧
    (goContains ct "pdf" = false → goContains ct "html" = true →
      pageRenderCategory 200 ct = .htmlViz) ∧
    (goContains ct "pdf" = false → goContains ct "html" = false →
      pageRenderCategory 200 ct = .successViz) ∧
    pageRenderCategory 404 ct = .errorViz "HTTP 404" := by
  refine ⟨?_, ?_, ?_, ?_, ?_⟩
  · intro h
    have h2 : (status == 200) = false := by simpa using h
    simp [pageRenderCategory, h2]
  · intro h
    simp [pageRenderCategory, h]
  · intro h1 h2
    simp [pageRenderCategory, h1, h2]
  · intro h1 h2
    simp [pageRenderCategory, h1, h2]
  · simp [pageRenderCategory]
    decide

/-- C7 witness: the amended mapping evaluated on one concrete input per
category. -/
theorem c7_amended_witness :
    pageRenderCategory 404 "text/html" = .errorViz "HTTP 404" ∧
    pageRenderCategory 200 "application/pdf" = .pdfViz ∧
    pageRenderCategory 200 "text/html" = .htmlViz ∧
    pageRenderCategory 200 "image/jpeg" = .successViz :=
  ⟨(c7_amended_category_mapping 404 "text/html").1 (by decide),
   (c7_amended_category_mapping 200 "application/pdf").2.1 (by decide),
   (c7_amended_category_mapping 200 "text/html").2.2.1 (by decide) (by decide),
   (c7_amended_category_mapping 200 "image/jpeg").2.2.2.1 (by decide) (by decide)⟩

/-- C4: the non-PDF chain tries wkhtmltoimage, google-chrome, chromium in this
fixed order, stopping at the first that is on the path and executes
successfully; a tool absent from the path is never executed (skipped, not a
failure); and the raw-fetch/synthetic `captureWithPageRender` step runs
exactly when no renderer both exists and succeeds. -/
theorem c4_capture_chain (env : ToolEnv) :
    (Capture env).winner = firstSuccessfulRenderer env ∧
    (∀ t ∈ (Capture env).toolsRun, env.onPath t = true) ∧
    List.Sublist (Capture env).toolsRun rendererOrder ∧
    ((Capture env).fellBack = true ↔ firstSuccessfulRenderer env = none) := by
  cases h1 : env.onPath "wkhtmltoimage" <;> cases h2 : env.runOk "wkhtmltoimage" <;>
  cases h3 : env.onPath "google-chrome" <;> cases h4 : env.runOk "google-chrome" <;>
  cases h5 : env.onPath "chromium" <;> cases h6 : env.runOk "chromium" <;>
    simp_all [Capture, firstSuccessfulRenderer, rendererOrder]

/-- Concrete tool environment for the C4 witness: only google-chrome is on the
path, and every run succeeds. -/
def c4Env : ToolEnv :=
  ⟨fun t => t == "google-chrome", fun _ => true⟩

/-- C4 witness: the chain evaluated where only google-chrome is installed. -/
theorem c4_capture_chain_witness :
    (Capture c4Env).winner = firstSuccessfulRenderer c4Env ∧
    (∀ t ∈ (Capture c4Env).toolsRun, c4Env.onPath t = true) ∧
    List.Sublist (Capture c4Env).toolsRun rendererOrder ∧
    ((Capture c4Env).fellBack = true ↔ firstSuccessfulRenderer c4Env = none) :=
  c4_capture_chain c4Env

/-- Concrete environment for the C1 counterexample: the download succeeds,
pdftoppm and convert are both on the path, pdftoppm's run fails, convert's
would succeed. -/
def c1Env : PdfEnv :=
  ⟨true, true, true, 200, true, true,
    ⟨fun t => t == "pdftoppm" || t == "convert", fun t => t == "convert"⟩, true, true⟩

/-- C1 counterexample: with pdftoppm available but failing and convert
available and working, `CapturePDF` returns pdftoppm's error — the chain does
not advance to convert, and the synthetic placeholder is not used, contrary to
the claim that an available-but-failing tool is not final. -/
theorem c1_counterexample :
    c1Env.tools.onPath "pdftoppm" = true ∧
    c1Env.tools.runOk "pdftoppm" = false ∧
    c1Env.tools.onPath "convert" = true ∧
    c1Env.tools.runOk "convert" = true ∧
    CapturePDF c1Env = ⟨.err "pdftoppm failed", true, true, ["pdftoppm"], false⟩ := by
  exact ⟨by decide, by decide, by decide, by decide, by decide⟩

/-- C1 amended: in the PDF rasterizer chain, selection is by availability
only.  After a successful download, `CapturePDF` runs at most the first tool
on the path (probing pdftoppm, convert, pdfimages in that order) and returns
that tool's result as final — if its execution fails, the failure is returned
without trying the remaining tools — and the synthetic PDF placeholder is used
exactly when none of the three tools is on the path. -/
theorem c1_amended_first_available_is_final (env : PdfEnv)
    (hm : env.mkdirOk = true) (hr : env.reqOk = true) (hd : env.doOk = true)
    (hs : env.status = 200) (hc : env.createTempOk = true) (hcp : env.copyOk = true) :
    (∀ t ∈ (CapturePDF env).toolsRun, env.tools.onPath t = true) ∧
    (CapturePDF env).toolsRun = (firstAvailableRasterizer env).toList ∧
    ((CapturePDF env).usedSynthetic = true ↔ firstAvailableRasterizer env = none) ∧
    (∀ t, firstAvailableRasterizer env = some t → env.tools.runOk t = false →
      ∃ m, (CapturePDF env).ret = .err m) := by
  cases h1 : env.tools.onPath "pdftoppm" <;> cases h2 : env.tools.onPath "convert" <;>
  cases h3 : env.tools.onPath "pdfimages" <;>
    simp_all [CapturePDF, firstAvailableRasterizer, rasterizerOrder, pdfimagesRet]

/-- Concrete environment for the C1 witness: successful download, no
rasterizer tool on the path. -/
def c1WitEnv : PdfEnv :=
  ⟨true, true, true, 200, true, true, ⟨fun _ => false, fun _ => false⟩, false, false⟩

/-- C1 witness: the amended claim evaluated where no tool is installed (the
synthetic placeholder case). -/
theorem c1_amended_witness :
    (∀ t ∈ (CapturePDF c1WitEnv).toolsRun, c1WitEnv.tools.onPath t = true) ∧
    (CapturePDF c1WitEnv).toolsRun = (firstAvailableRasterizer c1WitEnv).toList ∧
    ((CapturePDF c1WitEnv).usedSynthetic = true ↔ firstAvailableRasterizer c1WitEnv = none) ∧
    (∀ t, firstAvailableRasterizer c1WitEnv = some t → c1WitEnv.tools.runOk t = false →
      ∃ m, (CapturePDF c1WitEnv).ret = .err m) :=
  c1_amended_first_available_is_final c1WitEnv rfl rfl rfl rfl rfl rfl

/-- Concrete environment for C2: the download succeeds (HTTP 200),
`os.Create` of the temporary PDF succeeds, and `io.Copy` of the body into it
fails. -/
def c2Env : PdfEnv :=
  ⟨true, true, true, 200, true, false, ⟨fun _ => true, fun _ => true⟩, true, true⟩

/-- C2 (code bug): when `io.Copy` into the scoped temporary PDF fails,
`CapturePDF` returns "failed to save temp PDF" with the temporary file created
but never removed — the `defer os.Remove(tempPDF)` is registered only after
the copy-error check, so this exit path leaks the file, contradicting the
guaranteed-cleanup contract. -/
theorem c2_temp_leak_on_copy_failure :
    (CapturePDF c2Env).tempCreated = true ∧
    (CapturePDF c2Env).tempRemoved = false ∧
    (CapturePDF c2Env).ret = .err "failed to save temp PDF" := by
  exact ⟨by decide, by decide, by decide⟩

/-! ## Optimizer lemmas -/

lemma optimizeImageSize_spec (fp : String) (kb : Nat) (e : OptEnv) :
    ((optimizeImageSize fp kb e).replaced = true →
      (optimizeImageSize fp kb e).finalSize < kb * 1024 ∧
      kb * 1024 < e.origSize ∧
      (optimizeImageSize fp kb e).renamedFrom = some (fp ++ ".tmp.jpg")) ∧
    ((optimizeImageSize fp kb e).replaced = false →
      (optimizeImageSize fp kb e).finalSize = e.origSize) := by
  unfold optimizeImageSize
  cases hst : e.statOk <;> cases hro : e.runOk <;> cases hc : e.candSize <;>
    simp_all <;> split_ifs <;> simp_all

lemma compressImage_spec (ip : String) (kb : Nat) (e : CompressEnv) :
    ((compressImage ip kb e).replaced = true →
      (compressImage ip kb e).finalSize < kb * 1024 ∧
      kb * 1024 < e.origSize) ∧
    ((compressImage ip kb e).replaced = false →
      (compressImage ip kb e).finalSize = e.origSize) := by
  unfold compressImage
  cases hst : e.statOk <;> cases hco : e.convertOnPath <;>
  cases hr1 : e.run1Ok <;> cases hr2 : e.run2Ok <;>
  cases hc1 : e.cand1Size <;> cases hc2 : e.cand2Size <;>
    simp_all <;> split_ifs <;> simp_all

lemma optimizeImageSize_keeps (fp : String) (kb : Nat) (e : OptEnv)
    (h : e.statOk = true) (hfit : ∀ n, e.candSize = some n → kb * 1024 ≤ n) :
    optimizeImageSize fp kb e = ⟨false, e.origSize, false, none⟩ := by
  unfold optimizeImageSize
  cases hro : e.runOk <;> cases hc : e.candSize <;>
    simp_all <;> split_ifs <;> simp_all <;> omega

lemma compressImage_keeps (ip : String) (kb : Nat) (e : CompressEnv)
    (h : e.statOk = true)
    (hfit1 : ∀ n, e.cand1Size = some n → kb * 1024 ≤ n)
    (hfit2 : ∀ n, e.cand2Size = some n → kb * 1024 ≤ n) :
    compressImage ip kb e = ⟨false, e.origSize, false, none⟩ := by
  unfold compressImage
  cases hco : e.convertOnPath <;>
  cases hr1 : e.run1Ok <;> cases hr2 : e.run2Ok <;>
  cases hc1 : e.cand1Size <;> cases hc2 : e.cand2Size <;>
    simp_all <;> split_ifs <;> simp_all <;> omega

/-- C3: the size optimizer never reports a budget miss as an error — when the
original artifact is statable and no recompression candidate is strictly under
the byte budget (also covering an unavailable or failing tool), both
`optimizeImageSize` and `compressImage` keep the original artifact unchanged
and return success. -/
theorem c3_budget_miss_not_error (fp ip : String) (kb : Nat) (e1 : OptEnv) (e2 : CompressEnv)
    (h1 : e1.statOk = true)
    (hfit1 : ∀ n, e1.candSize = some n → kb * 1024 ≤ n)
    (h2 : e2.statOk = true)
    (hfit2a : ∀ n, e2.cand1Size = some n → kb * 1024 ≤ n)
    (hfit2b : ∀ n, e2.cand2Size = some n → kb * 1024 ≤ n) :
    optimizeImageSize fp kb e1 = ⟨false, e1.origSize, false, none⟩ ∧
    compressImage ip kb e2 = ⟨false, e2.origSize, false, none⟩ :=
  ⟨optimizeImageSize_keeps fp kb e1 h1 hfit1, compressImage_keeps ip kb e2 h2 hfit2a hfit2b⟩

/-- Concrete `optimizeImageSize` environment for the C3 witness: the convert
run fails, so no candidate exists. -/
def c3OptEnv : OptEnv := ⟨200000, true, false, none⟩

/-- Concrete `compressImage` environment for the C3 witness: both candidates
exceed the 120 KB budget. -/
def c3CompEnv : CompressEnv := ⟨200000, true, true, true, some 150000, true, some 130000⟩

/-- C3 witness: budget misses on concrete environments keep the originals and
succeed. -/
theorem c3_witness :
    optimizeImageSize "shot.png" 120 c3OptEnv = ⟨false, c3OptEnv.origSize, false, none⟩ ∧
    compressImage "img.png" 120 c3CompEnv = ⟨false, c3CompEnv.origSize, false, none⟩ :=
  c3_budget_miss_not_error "shot.png" "img.png" 120 c3OptEnv c3CompEnv rfl
    (fun n hn => by simp [c3OptEnv] at hn)
    rfl
    (fun n hn => by simp [c3CompEnv] at hn; omega)
    (fun n hn => by simp [c3CompEnv] at hn; omega)

/-- C5: the size optimizer is monotonically non-worsening — for an artifact
over budget, both `optimizeImageSize` and `compressImage` replace the file
only with a candidate strictly smaller than the budget (hence strictly smaller
than the original), and the size on disk never grows relative to the input. -/
theorem c5_optimizer_nonworsening (fp ip : String) (kb : Nat) (e1 : OptEnv) (e2 : CompressEnv)
    (hb1 : kb * 1024 < e1.origSize) (hb2 : kb * 1024 < e2.origSize) :
    ((optimizeImageSize fp kb e1).replaced = true →
      (optimizeImageSize fp kb e1).finalSize < kb * 1024 ∧
      (optimizeImageSize fp kb e1).finalSize < e1.origSize) ∧
    (optimizeImageSize fp kb e1).finalSize ≤ e1.origSize ∧
    ((compressImage ip kb e2).replaced = true →
      (compressImage ip kb e2).finalSize < kb * 1024 ∧
      (compressImage ip kb e2).finalSize < e2.origSize) ∧
    (compressImage ip kb e2).finalSize ≤ e2.origSize := by
  obtain ⟨o1, o2⟩ := optimizeImageSize_spec fp kb e1
  obtain ⟨k1, k2⟩ := compressImage_spec ip kb e2
  refine ⟨?_, ?_, ?_, ?_⟩
  · intro h
    obtain ⟨a, b, -⟩ := o1 h
    exact ⟨a, by omega⟩
  · cases hrep : (optimizeImageSize fp kb e1).replaced with
    | false => exact Nat.le_of_eq (o2 hrep)
    | true => obtain ⟨a, b, -⟩ := o1 hrep; omega
  · intro h
    obtain ⟨a, b⟩ := k1 h
    exact ⟨a, by omega⟩
  · cases hrep : (compressImage ip kb e2).replaced with
    | false => exact Nat.le_of_eq (k2 hrep)
    | true => obtain ⟨a, b⟩ := k1 hrep; omega

/-- Concrete `optimizeImageSize` environment for the C5 witness: the candidate
fits, so the file is replaced. -/
def c5OptEnv : OptEnv := ⟨200000, true, true, some 50000⟩

/-- Concrete `compressImage` environment for the C5 witness. -/
def c5CompEnv : CompressEnv := ⟨200000, true, true, true, some 50000, true, some 40000⟩

/-- C5 witness: non-worsening evaluated on concrete over-budget artifacts. -/
theorem c5_witness :
    ((optimizeImageSize "shot.png" 120 c5OptEnv).replaced = true →
      (optimizeImageSize "shot.png" 120 c5OptEnv).finalSize < 120 * 1024 ∧
      (optimizeImageSize "shot.png" 120 c5OptEnv).finalSize < c5OptEnv.origSize) ∧
    (optimizeImageSize "shot.png" 120 c5OptEnv).finalSize ≤ c5OptEnv.origSize ∧
    ((compressImage "img.png" 120 c5CompEnv).replaced = true →
      (compressImage "img.png" 120 c5CompEnv).finalSize < 120 * 1024 ∧
      (compressImage "img.png" 120 c5CompEnv).finalSize < c5CompEnv.origSize) ∧
    (compressImage "img.png" 120 c5CompEnv).finalSize ≤ c5CompEnv.origSize :=
  c5_optimizer_nonworsening "shot.png" "img.png" 120 c5OptEnv c5CompEnv (by decide) (by decide)

/-- C10: every artifact the pipeline itself encodes is JPEG data behind a
".png" name — the orchestrator's output path always ends in ".png", each
synthetic placeholder is written by `saveImage` as JPEG at quality 85, and an
accepted recompression candidate is the `convert` output at
`filePath + ".tmp.jpg"` (a JPEG, by ImageMagick's extension-driven encoding)
renamed over the ".png"-named path. -/
theorem c10_png_named_jpeg_artifacts (outputDir url p fp : String) (kb : Nat) (e : OptEnv) :
    strEndsWith (screenshotOutputPath outputDir url) ".png" = true ∧
    createPDFVisualizationWrite p = ⟨p, .jpeg, 85⟩ ∧
    createHTMLVisualizationWrite p = ⟨p, .jpeg, 85⟩ ∧
    createSuccessVisualizationWrite p = ⟨p, .jpeg, 85⟩ ∧
    createErrorImageWrite p = ⟨p, .jpeg, 85⟩ ∧
    ((optimizeImageSize fp kb e).replaced = true →
      (optimizeImageSize fp kb e).renamedFrom = some (fp ++ ".tmp.jpg") ∧
      magickOutputFormat (fp ++ ".tmp.jpg") = .jpeg) := by
  refine ⟨?_, rfl, rfl, rfl, rfl, ?_⟩
  · apply strEndsWith_of_data _ _ (outputDir.data ++ "/".data ++ (sanitizeFilename url).data)
    simp [screenshotOutputPath, String.data_append, List.append_assoc]
  · intro h
    obtain ⟨-, -, hr⟩ := (optimizeImageSize_spec fp kb e).1 h
    refine ⟨hr, ?_⟩
    have hjpg : strEndsWith (fp ++ ".tmp.jpg") ".jpg" = true := by
      apply strEndsWith_of_data _ _ (fp.data ++ ".tmp".data)
      simp [String.data_append, List.append_assoc]
    simp [magickOutputFormat, hjpg]

/-- Concrete `optimizeImageSize` environment for the C10 witness: the
candidate fits, so the rename happens. -/
def c10Env : OptEnv := ⟨200000, true, true, some 50000⟩

/-- C10 witness: an accepted candidate on a concrete environment is the
".tmp.jpg" file, a JPEG, renamed over the artifact path. -/
theorem c10_witness :
    (optimizeImageSize "shot.png" 120 c10Env).renamedFrom = some ("shot.png" ++ ".tmp.jpg") ∧
    magickOutputFormat ("shot.png" ++ ".tmp.jpg") = .jpeg :=
  (c10_png_named_jpeg_artifacts "shots" "http://example.com" "p.png" "shot.png" 120
    c10Env).2.2.2.2.2 (by decide)

end DorkerPlus
